import Mathlib

/-!
Shallow embedding of the disci interaction-handler core: the verifying
handler (handleRequest / processRequest / verifyRequest with the reply
timeout race), the signal-based handler variant (processRequest with an
AbortSignal), option merging at construction, and the Rest helper methods.
Helpers that live outside src (ToRequest, toResponse, the constants module,
InteractionFactory and the Interaction structure) are modelled from the
spec and carry a doc comment saying so.
-/

/-- Response payloads that can fulfil an interaction response: the Pong
acknowledgement, the deferred acknowledgement, or a subscriber-supplied
payload. -/
inductive ResponsePayload
  | pong
  | deferredAck
  | custom (s : String)
deriving DecidableEq, Repr

/-- Body of an outbound transport response: either a JSON interaction
response payload or a plain error-message string. -/
inductive ResponseBody
  | json (p : ResponsePayload)
  | text (s : String)
deriving DecidableEq, Repr

/-- Canonical outbound response shape: status code plus body. -/
structure IResponse where
  statusCode : Nat
  body : ResponseBody
deriving DecidableEq, Repr

/-- Modelled from the spec: `toResponse` lives in utils/request, which is
not under src; it denormalizes a payload plus an optional status code into
the transport response, defaulting the status to 200. -/
def toResponse (b : ResponseBody) (status : Option Nat) : IResponse :=
  ⟨status.getD 200, b⟩

/-- Modelled from the spec: the Unauthorized error message constant from
utils/constants (not under src); its exact text is unknown but unused
beyond identity. -/
def unauthorizedMsg : String := "Unauthorized"

/-- Modelled from the spec: the InternalError message constant from
utils/constants (not under src). -/
def internalErrorMsg : String := "Internal Server Error"

/-- Modelled from the spec: the TimedOut message constant from
utils/constants (not under src). -/
def timedOutMsg : String := "Request timed out"

/-- Modelled from the spec: the NotSupported message constant from
utils/constants (not under src). -/
def notSupportedMsg : String := "Not Supported"

/-- Parse-failure message of the verifying handler (source literal). -/
def parseFailMsg : String := "Failed to parse rawBody into a valid ApiInteraction"

/-- Parse rejection string of the signal-based variant (source literal). -/
def parseFailMsg2 : String :=
  "ParseError: Failed to parse received interaction to a valid interaction"

/-- Unsupported-kind rejection string of the signal-based variant
(source template literal). -/
def unsupportedMsg2 (ty : Nat) : String :=
  "UnsupportedInteraction: Unsupported Interaction of type " ++ toString ty ++ " received"

/-- Error kinds thrown or rejected by the handler code: MalformedRequest
from the normalizer, DisciParseError, DisciValidationError. -/
inductive DisciError
  | malformed (msg : String)
  | parseFailure (msg : String)
  | validation (msg : String)
deriving DecidableEq, Repr

/-- The raw interaction payload after JSON parsing, restricted to the
fields the dispatcher inspects: the id and the numeric type discriminant
of discord-api-types (Ping is 1, ApplicationCommand 2, MessageComponent 3,
ApplicationCommandAutocomplete 4, ModalSubmit 5). -/
structure APIInteraction where
  id : String
  type : Nat
deriving DecidableEq, Repr

/-- Lifecycle state of an Interaction: pending, then exactly one of
responded or timed out. -/
inductive IState
  | pending
  | responded
  | timedOut
deriving DecidableEq, Repr

/-- Which callback is installed on the interaction: the dispatcher's
promise resolver, or the throwing callback installed by the abort listener
of the signal-based variant. -/
inductive CallbackKind
  | resolver
  | thrower
deriving DecidableEq, Repr

/-- Modelled from the spec: the Interaction structure built by
InteractionFactory (utils/Factories and the structures module are not under
src). It wraps one parsed event and tracks its lifecycle state and the
callback installed by useCallback; resolve is valid only from pending and
fulfils the response future exactly once. -/
structure InteractionState where
  id : String
  itype : Nat
  state : IState
  callback : CallbackKind
deriving DecidableEq, Repr

/-- Autocomplete check: the ApplicationCommandAutocomplete discriminant
is 4. -/
def InteractionState.isAutoComplete (i : InteractionState) : Bool := i.itype == 4

/-- A JS promise as seen by the dispatcher: it settles at most once, and
resolve or reject on an already-settled promise leaves it unchanged. -/
inductive PromiseCell
  | unsettled
  | resolvedWith (r : IResponse)
  | rejectedWith (e : DisciError)
deriving DecidableEq, Repr

/-- First settlement wins: settling an already-settled promise is a no-op. -/
def PromiseCell.settle (c v : PromiseCell) : PromiseCell :=
  match c with
  | .unsettled => v
  | _ => c

/-- State of the one-shot reply-timeout alarm. The cleared state would be
reached by a clearTimeout call; the dispatcher never issues one. -/
inductive TimerSt
  | notScheduled
  | scheduled (fireAt : Nat)
  | fired
  | cleared
deriving DecidableEq, Repr

/-- Effective configuration fields consulted by the verifying dispatcher. -/
structure HandlerOptions where
  replyTimeout : Nat
  deferOnTimeout : Bool
deriving DecidableEq, Repr

/-- Observable state of one processRequest call of the verifying handler:
the promise it returned (with its settlement time), the Interaction it
created, the reply-timeout alarm, whether interactionCreate was emitted,
and how many resolution attempts were rejected as double responses. -/
structure ProcState where
  promise : PromiseCell
  settledAt : Option Nat
  interaction : Option InteractionState
  timer : TimerSt
  timerFiredAt : Option Nat
  emittedCreate : Bool
  rejectedAttempts : Nat
deriving DecidableEq, Repr

/-- Settle the promise at time t if it is not yet settled; otherwise leave
the state unchanged. -/
def ProcState.settleProm (st : ProcState) (v : PromiseCell) (t : Nat) : ProcState :=
  match st.promise with
  | .unsettled => { st with promise := v, settledAt := some t }
  | _ => st

/-- Timed events racing inside one call of the verifying handler: a
subscriber resolution attempt, or the reply-timeout alarm firing. -/
inductive PEvent
  | subRespond (p : ResponsePayload)
  | timerFire
deriving DecidableEq, Repr

/-- One step of the verifying dispatcher race inside processRequest.
A subscriber resolution attempt goes through the Interaction state machine:
from pending it marks the interaction responded and invokes the installed
callback (the resolver settles the promise with the toResponse of the
payload); from any other state the attempt is rejected as a double
response. The timer callback re-checks the responded flag and either
defers (deferOnTimeout set and not autocomplete, via deferResponse) or
hard-times-out with the 504 TimedOut response after setting the timeout
flag; when the interaction has already responded the firing is a no-op. -/
def step1 (opts : HandlerOptions) (st : ProcState) (t : Nat) (e : PEvent) : ProcState :=
  match e with
  | .subRespond p =>
    match st.interaction with
    | some i =>
      if i.state = .pending then
        let st' := { st with interaction := some { i with state := .responded } }
        match i.callback with
        | .resolver => st'.settleProm (.resolvedWith (toResponse (.json p) none)) t
        | .thrower => st'
      else
        { st with rejectedAttempts := st.rejectedAttempts + 1 }
    | none => st
  | .timerFire =>
    match st.interaction with
    | some i =>
      let st0 := { st with timer := .fired, timerFiredAt := some t }
      if i.state = .responded then st0
      else
        if opts.deferOnTimeout && !i.isAutoComplete then
          let st' := { st0 with interaction := some { i with state := .responded } }
          st'.settleProm (.resolvedWith (toResponse (.json .deferredAck) none)) t
        else
          let st' := { st0 with interaction := some { i with state := .timedOut } }
          st'.settleProm (.resolvedWith (toResponse (.text timedOutMsg) (some 504))) t
    | none => { st with timer := .fired, timerFiredAt := some t }

/-- Run the timed events of one verifying-handler call in order. -/
def runEvents1 (opts : HandlerOptions) (st : ProcState) (evs : List (Nat × PEvent)) : ProcState :=
  evs.foldl (fun s te => step1 opts s te.1 te.2) st

/-- Modelled from the spec: InteractionFactory.from (utils/Factories, not
under src) builds a pending Interaction for the recognized non-ping kinds
(application command 2, message component 3, autocomplete 4, modal submit
5) and the dispatcher installs its resolver callback on it; a ping (1) and
unrecognized kinds yield none. -/
def factoryFrom (raw : APIInteraction) : Option InteractionState :=
  if raw.type == 2 || raw.type == 3 || raw.type == 4 || raw.type == 5 then
    some { id := raw.id, itype := raw.type, state := .pending, callback := .resolver }
  else none

/-- Synchronous part of processRequest of the verifying handler, given the
result of tryAndValue of JSON.parse on the body: a parse failure rejects
with DisciParseError; a recognized interaction is created pending with the
resolver callback, the reply-timeout alarm is scheduled and
interactionCreate is emitted; a ping resolves Pong directly; any other
kind resolves the NotSupported 500 response. -/
def setup1 (opts : HandlerOptions) (parsed : Option APIInteraction) : ProcState :=
  let base : ProcState :=
    { promise := .unsettled, settledAt := none, interaction := none,
      timer := .notScheduled, timerFiredAt := none, emittedCreate := false,
      rejectedAttempts := 0 }
  match parsed with
  | none =>
    { base with promise := .rejectedWith (.parseFailure parseFailMsg), settledAt := some 0 }
  | some raw =>
    match factoryFrom raw with
    | some i =>
      { base with
        interaction := some i
        timer := .scheduled opts.replyTimeout
        emittedCreate := true }
    | none =>
      if raw.type == 1 then
        { base with
          promise := .resolvedWith (toResponse (.json .pong) none)
          settledAt := some 0 }
      else
        { base with
          promise := .resolvedWith (toResponse (.text notSupportedMsg) (some 500))
          settledAt := some 0 }

/-- Event schedule of one verifying-handler call: an optional subscriber
resolution attempt at time t races the reply-timeout alarm at time T; the
alarm is processed first on a tie, since a resolution at exactly T is not a
resolution within the window. -/
def schedule1 (s : Option (Nat × ResponsePayload)) (T : Nat) : List (Nat × PEvent) :=
  match s with
  | none => [(T, .timerFire)]
  | some (t, p) =>
    if t < T then [(t, .subRespond p), (T, .timerFire)]
    else [(T, .timerFire), (t, .subRespond p)]

/-- Complete run of processRequest of the verifying handler against a
parsed body and an optional subscriber resolution attempt; the alarm event
exists exactly when the interaction was created. -/
def processRequest1 (opts : HandlerOptions) (parsed : Option APIInteraction)
    (s : Option (Nat × ResponsePayload)) : ProcState :=
  let st := setup1 opts parsed
  match st.timer with
  | .scheduled T => runEvents1 opts st (schedule1 s T)
  | _ => st

/-- Canonical request shape produced by the normalizer. -/
structure IRequest where
  headers : List (String × String)
  body : String
deriving DecidableEq, Repr

/-- Header lookup, as req.headers of the given name. -/
def getHeader (req : IRequest) (name : String) : Option String :=
  (req.headers.find? (fun kv => kv.1 == name)).map (fun kv => kv.2)

/-- Modelled from the spec: the timestamp entry of
DiscordVerificationHeaders in utils/constants (not under src). -/
def timestampHeader : String := "x-signature-timestamp"

/-- Modelled from the spec: the signature entry of
DiscordVerificationHeaders in utils/constants (not under src). -/
def signatureHeader : String := "x-signature-ed25519"

/-- JS falsiness of a possibly-missing string: absent or empty. -/
def falsyStr : Option String → Bool
  | none => true
  | some s => s == ""

/-- The verifying handler's verifyRequest: read the timestamp and
signature headers and the body, return false when any of them is missing
or empty, otherwise ask the Ed25519 primitive to verify the hex signature
over the concatenation of timestamp and raw body; an exception from the
primitive is caught and yields false. The primitive itself is the
platform's crypto.subtle and is passed in as cv. -/
def verifyRequest (cv : String → String → Except Unit Bool) (req : IRequest) : Bool :=
  let timestamp := getHeader req timestampHeader
  let signature := getHeader req signatureHeader
  if falsyStr timestamp || falsyStr signature || (req.body == "") then false
  else
    match cv (signature.getD "") ((timestamp.getD "") ++ req.body) with
    | .error _ => false
    | .ok b => b

/-- Transport-level request shapes the normalizer accepts, plus a shape it
cannot adapt. -/
inductive RawRequest
  | frameworkReq (headers : List (String × String)) (body : String)
  | bodyTuple (headers : List (String × String)) (body : String)
  | unadaptable (tag : String)
deriving DecidableEq, Repr

/-- Modelled from the spec: ToRequest (utils/request, not under src) adapts
a transport-specific request into the canonical headers-plus-body shape and
fails with a MalformedRequest kind when headers or body cannot be
extracted. -/
def ToRequest : RawRequest → Except DisciError IRequest
  | .frameworkReq h b => .ok ⟨h, b⟩
  | .bodyTuple h b => .ok ⟨h, b⟩
  | .unadaptable tag => .error (.malformed tag)

/-- Outcome of one handleRequest call: a response together with whether
body parsing was attempted and whether the error event was emitted; or a
rejection escaping the async function; or a hang when the promise returned
by processRequest never settles. -/
inductive HandleOutcome
  | respondedWith (r : IResponse) (parseAttempted : Bool) (errorEmitted : Bool)
  | rejects (e : DisciError)
  | hangs
deriving DecidableEq, Repr

/-- handleRequest of the verifying handler: adapt the request with
ToRequest (outside any try/catch, so its failure rejects the async call),
verify it (any rejection of the verifier is caught and counts as false),
return the Unauthorized 400 response without touching the body when
verification fails, and otherwise run processRequest, converting its
rejection (caught) into the InternalError 500 response with the error
event emitted. -/
def handleRequest1 (opts : HandlerOptions) (cv : String → String → Except Unit Bool)
    (parse : String → Option APIInteraction) (raw : RawRequest)
    (s : Option (Nat × ResponsePayload)) : HandleOutcome :=
  match ToRequest raw with
  | .error e => .rejects e
  | .ok req =>
    if verifyRequest cv req then
      let fin := processRequest1 opts (parse req.body) s
      match fin.promise with
      | .resolvedWith r => .respondedWith r true false
      | .rejectedWith _ => .respondedWith (toResponse (.text internalErrorMsg) (some 500)) true true
      | .unsettled => .hangs
    else
      .respondedWith (toResponse (.text unauthorizedMsg) (some 400)) false false

/-- A promise of the signal-based variant: its processRequest resolves with
the raw interaction response payload and rejects with plain strings (the
signal reason or the template strings of the source). -/
inductive Promise2
  | unsettled
  | resolvedWith (p : ResponsePayload)
  | rejectedWith (reason : String)
deriving DecidableEq, Repr

/-- Cancellation-signal behaviour over one call: whether it was already
aborted at entry, its reason, and when (if ever) it fires afterwards. -/
structure SignalSpec where
  abortedAtEntry : Bool
  reason : String
  firesAt : Option Nat
deriving DecidableEq, Repr

/-- Observable state of one processRequest call of the signal-based
variant: the promise, the Interaction, whether the abort listener was
registered, the interaction state observed at the moment the abort
listener rejected, whether the throwing replacement callback was invoked,
whether interactionCreate was emitted, whether body parsing was attempted,
and the count of double-response attempts. -/
structure Proc2State where
  promise : Promise2
  settledAt : Option Nat
  interaction : Option InteractionState
  listenerRegistered : Bool
  stateAtReject : Option IState
  callbackThrew : Bool
  emittedCreate : Bool
  parseAttempted : Bool
  rejectedAttempts : Nat
deriving DecidableEq, Repr

/-- Settle the signal-variant promise at time t if it is not yet settled. -/
def Proc2State.settleProm (st : Proc2State) (v : Promise2) (t : Nat) : Proc2State :=
  match st.promise with
  | .unsettled =>
    { st with
      promise := v
      settledAt := some t }
  | _ => st

/-- Timed events of the signal-based variant: subscriber resolution
attempts race the abort listener firing with the signal reason. -/
inductive P2Event
  | subRespond (p : ResponsePayload)
  | abortFire (reason : String)
deriving DecidableEq, Repr

/-- One step of the signal-based dispatcher. A subscriber resolution from
pending marks the interaction responded and invokes whichever callback is
installed: the resolver settles the promise with the payload, the thrower
raises inside the caller and leaves the promise untouched; from a
non-pending state the attempt is rejected as a double response. The abort
listener, when registered, swaps the interaction callback for the throwing
one, records the interaction state at that moment and rejects the promise
with the signal reason. -/
def step2 (st : Proc2State) (t : Nat) (e : P2Event) : Proc2State :=
  match e with
  | .subRespond p =>
    match st.interaction with
    | some i =>
      if i.state = .pending then
        let st' := { st with interaction := some { i with state := .responded } }
        match i.callback with
        | .resolver => st'.settleProm (.resolvedWith p) t
        | .thrower => { st' with callbackThrew := true }
      else { st with rejectedAttempts := st.rejectedAttempts + 1 }
    | none => st
  | .abortFire reason =>
    if st.listenerRegistered then
      let st' :=
        match st.interaction with
        | some i => { st with interaction := some { i with callback := .thrower } }
        | none => st
      let st'' := { st' with stateAtReject := st'.interaction.map InteractionState.state }
      st''.settleProm (.rejectedWith reason) t
    else st

/-- Run the timed events of one signal-based call in order. -/
def runEvents2 (st : Proc2State) (evs : List (Nat × P2Event)) : Proc2State :=
  evs.foldl (fun s te => step2 s te.1 te.2) st

/-- Post-parse part of the synchronous setup of the signal-based
processRequest: a parse failure rejects with the ParseError string; a
recognized interaction is created pending with the resolver callback, the
abort listener is registered when a signal was supplied, and
interactionCreate is emitted; a ping resolves Pong directly; any other
kind rejects with the UnsupportedInteraction string. -/
def setup2core (hasSignal : Bool) (parsed : Option APIInteraction)
    (base : Proc2State) : Proc2State :=
  let b := { base with parseAttempted := true }
  match parsed with
  | none => b.settleProm (.rejectedWith parseFailMsg2) 0
  | some raw =>
    match factoryFrom raw with
    | some i =>
      { b with
        interaction := some i
        listenerRegistered := hasSignal
        emittedCreate := true }
    | none =>
      if raw.type == 1 then b.settleProm (.resolvedWith .pong) 0
      else b.settleProm (.rejectedWith (unsupportedMsg2 raw.type)) 0

/-- Synchronous part of the signal-based processRequest: a signal already
aborted at entry rejects at once with its reason, before any parsing;
otherwise the body is parsed and handled by the post-parse setup. -/
def setup2 (sig : Option SignalSpec) (parsed : Option APIInteraction) : Proc2State :=
  let base : Proc2State :=
    { promise := .unsettled
      settledAt := none
      interaction := none
      listenerRegistered := false
      stateAtReject := none
      callbackThrew := false
      emittedCreate := false
      parseAttempted := false
      rejectedAttempts := 0 }
  match sig with
  | some g =>
    if g.abortedAtEntry then base.settleProm (.rejectedWith g.reason) 0
    else setup2core true parsed base
  | none => setup2core false parsed base

/-- Event schedule of one signal-based call: the abort listener firing (if
the listener was registered and the signal ever fires) races the optional
subscriber attempt; the abort handler runs first on a tie. -/
def schedule2 (abort : Option (Nat × String)) (s : Option (Nat × ResponsePayload)) :
    List (Nat × P2Event) :=
  match abort, s with
  | none, none => []
  | some (f, r), none => [(f, .abortFire r)]
  | none, some (t, p) => [(t, .subRespond p)]
  | some (f, r), some (t, p) =>
    if f ≤ t then [(f, .abortFire r), (t, .subRespond p)]
    else [(t, .subRespond p), (f, .abortFire r)]

/-- Complete run of processRequest of the signal-based variant against a
signal behaviour, a parsed body and an optional subscriber attempt. -/
def processRequest2 (sig : Option SignalSpec) (parsed : Option APIInteraction)
    (s : Option (Nat × ResponsePayload)) : Proc2State :=
  let st := setup2 sig parsed
  let abort : Option (Nat × String) :=
    match sig with
    | some g =>
      if st.listenerRegistered then g.firesAt.map (fun f => (f, g.reason)) else none
    | none => none
  runEvents2 st (schedule2 abort s)

/-- A possibly-partial options record: none stands for a key the caller
did not supply. -/
structure UserOptions where
  publicKey : Option String
  replyTimeout : Option Nat
  deferOnTimeout : Option Bool
  debug : Option Bool
deriving DecidableEq, Repr

/-- Object.assign on options records: keys present in the source win, keys
absent in the source keep the target's value; the result is the (mutated)
target object. -/
def assignOptions (target src : UserOptions) : UserOptions :=
  { publicKey := src.publicKey.orElse (fun _ => target.publicKey)
    replyTimeout := src.replyTimeout.orElse (fun _ => target.replyTimeout)
    deferOnTimeout := src.deferOnTimeout.orElse (fun _ => target.deferOnTimeout)
    debug := src.debug.orElse (fun _ => target.debug) }

/-- The empty object literal used as a fresh Object.assign target. -/
def emptyOptions : UserOptions := ⟨none, none, none, none⟩

/-- Modelled from the spec: the shared defaultOptions record from
utils/constants (not under src): no public key by default, the 3000 ms
reply timeout of the platform's ack window, defer-on-timeout off, debug
off. -/
def defaultOptions : UserOptions := ⟨none, some 3000, some false, some false⟩

/-- Constructor of the verifying handler: merge a fresh object from the
defaults and then the user options (Object.assign onto an empty target,
leaving the shared defaults untouched) and throw DisciValidationError when
the merged record has no truthy publicKey. -/
def constructV1 (defaults opts : UserOptions) : Except DisciError UserOptions :=
  let merged := assignOptions (assignOptions emptyOptions defaults) opts
  if falsyStr merged.publicKey then .error (.validation "Public key is required")
  else .ok merged

/-- Constructor of the signal-based handler variant: Object.assign with
the shared defaults record itself as the target, so the handler's options
and the new contents of the shared defaults are the same record. Returns
the handler's options paired with the defaults record as it stands after
the construction. -/
def constructV2 (defaults opts : UserOptions) : UserOptions × UserOptions :=
  let merged := assignOptions defaults opts
  (merged, merged)

/-- Options record forwarded by the REST helpers to makeRequest. -/
structure RESTCommonOptions where
  headers : List (String × String)
  body : Option String
  query : List (String × String)
deriving DecidableEq, Repr

/-- The (method, path, options) triple a REST helper hands to makeRequest. -/
structure RestCall where
  method : String
  path : String
  opts : Option RESTCommonOptions
deriving DecidableEq, Repr

/-- Rest.get hands makeRequest the method string GET. -/
def Rest.get (path : String) (o : Option RESTCommonOptions) : RestCall :=
  ⟨"GET", path, o⟩

/-- Rest.post hands makeRequest the method string GET, as written in the
source. -/
def Rest.post (path : String) (o : Option RESTCommonOptions) : RestCall :=
  ⟨"GET", path, o⟩

/-- Rest.put hands makeRequest the lower-case method string put. -/
def Rest.put (path : String) (o : Option RESTCommonOptions) : RestCall :=
  ⟨"put", path, o⟩

/-- Rest.patch hands makeRequest the method string GET, as written in the
source. -/
def Rest.patch (path : String) (o : Option RESTCommonOptions) : RestCall :=
  ⟨"GET", path, o⟩

/-- Rest.delete hands makeRequest the method string DELETE. -/
def Rest.delete (path : String) (o : Option RESTCommonOptions) : RestCall :=
  ⟨"DELETE", path, o⟩

/-- Verification fails closed when the timestamp header, the signature
header or the body is missing or empty. -/
theorem verifyRequest_false_of_missing (cv : String → String → Except Unit Bool)
    (req : IRequest)
    (h : falsyStr (getHeader req timestampHeader) = true ∨
         falsyStr (getHeader req signatureHeader) = true ∨
         req.body = "") :
    verifyRequest cv req = false := by
  unfold verifyRequest
  rcases h with h | h | h
  · simp [h]
  · simp [h]
  · simp [h]

/-- C1: for every request whose signature verification fails or whose
signature header, timestamp header or body is missing or empty, the
verifying handleRequest returns the fixed Unauthorized 400 response,
attempts no parsing of the body, and the verification failure does not
escape: the call answers with a response instead of rejecting. -/
theorem c1_unauthorized_no_parse
    (opts : HandlerOptions) (cv : String → String → Except Unit Bool)
    (parse : String → Option APIInteraction) (raw : RawRequest)
    (s : Option (Nat × ResponsePayload)) (req : IRequest)
    (hadapt : ToRequest raw = .ok req)
    (hfail : verifyRequest cv req = false ∨
      falsyStr (getHeader req timestampHeader) = true ∨
      falsyStr (getHeader req signatureHeader) = true ∨
      req.body = "") :
    handleRequest1 opts cv parse raw s =
      .respondedWith (toResponse (.text unauthorizedMsg) (some 400)) false false := by
  have hv : verifyRequest cv req = false := by
    rcases hfail with h | h
    · exact h
    · exact verifyRequest_false_of_missing cv req h
  unfold handleRequest1
  rw [hadapt]
  simp [hv]

/-- Witness for C1 at a concrete request carrying no headers. -/
theorem c1_unauthorized_no_parse_witness :
    ToRequest (.frameworkReq [] "b") = .ok ⟨[], "b"⟩ ∧
    handleRequest1 ⟨3000, false⟩ (fun _ _ => .ok true) (fun _ => none)
      (.frameworkReq [] "b") none =
      .respondedWith (toResponse (.text unauthorizedMsg) (some 400)) false false :=
  ⟨rfl, c1_unauthorized_no_parse ⟨3000, false⟩ (fun _ _ => .ok true) (fun _ => none)
    (.frameworkReq [] "b") none ⟨[], "b"⟩ rfl (Or.inr (Or.inl rfl))⟩

/-- C7: handleRequest evaluated at a request the normalizer cannot adapt:
the MalformedRequest failure is raised before any try/catch, so the call
rejects with it instead of producing a fail-closed outbound error
response, contradicting the claim and the function's own doc comment that
it does not reject. -/
theorem c7_adaptation_failure_escapes :
    handleRequest1 ⟨3000, false⟩ (fun _ _ => .ok true) (fun _ => none)
      (.unadaptable "proxy-event") none = .rejects (.malformed "proxy-event") := rfl

/-- C8: the signal-variant constructor merges with Object.assign into the
shared defaults record itself, so constructing one handler with a 5000 ms
reply timeout makes a later construction with empty options observe 5000
instead of the pristine default 3000: the shared defaults were mutated. -/
theorem c8_defaults_mutated :
    (constructV2 (constructV2 defaultOptions ⟨none, some 5000, none, none⟩).2
        emptyOptions).1.replyTimeout = some 5000 ∧
    defaultOptions.replyTimeout = some 3000 :=
  ⟨rfl, rfl⟩

/-- C9: the REST helpers evaluated at a concrete path: get, put and delete
hand makeRequest their own verb, but post and patch hand it GET, so the
claim that every helper issues the verb matching its own name fails on
post and patch. -/
theorem c9_rest_verbs :
    (Rest.post "/a" none).method = "GET" ∧ (Rest.patch "/a" none).method = "GET" ∧
    "GET" ≠ "POST" ∧ "GET" ≠ "PATCH" ∧
    (Rest.get "/a" none).method = "GET" ∧ (Rest.put "/a" none).method = "put" ∧
    ( Rest.delete "/a" none).method = "DELETE" := by
  refine ⟨rfl, rfl, ?_, ?_, rfl, rfl, rfl⟩ <;> decide

/-- C10: the verifying constructor throws DisciValidationError exactly
when the merged options record has no truthy publicKey: a falsy merged key
makes construction fail, and a successful construction returns the merged
record with a non-falsy key, so no handler is ever built without key
material. -/
theorem c10_publicKey_required (defaults opts : UserOptions) :
    (falsyStr (assignOptions (assignOptions emptyOptions defaults) opts).publicKey = true →
      constructV1 defaults opts = .error (.validation "Public key is required")) ∧
    (∀ merged, constructV1 defaults opts = .ok merged →
      merged = assignOptions (assignOptions emptyOptions defaults) opts ∧
      falsyStr merged.publicKey = false) := by
  constructor
  · intro h
    unfold constructV1
    simp [h]
  · intro merged h
    unfold constructV1 at h
    dsimp only at h
    split at h
    · simp at h
    · next hc =>
      injection h with h2
      subst h2
      exact ⟨rfl, by simpa using hc⟩

/-- Witness for C10: with the spec defaults and empty user options the
merged record has no key and construction fails. -/
theorem c10_publicKey_required_witness :
    falsyStr (assignOptions (assignOptions emptyOptions defaultOptions)
        emptyOptions).publicKey = true ∧
    constructV1 defaultOptions emptyOptions =
      .error (.validation "Public key is required") :=
  ⟨rfl, (c10_publicKey_required defaultOptions emptyOptions).1 rfl⟩

/-- One step of the verifying dispatcher preserves a settled promise and
its settlement time. -/
theorem step1_keeps_settled (opts : HandlerOptions) (st : ProcState) (t : Nat)
    (e : PEvent) (r : IResponse) (h : st.promise = .resolvedWith r) :
    (step1 opts st t e).promise = .resolvedWith r ∧
    (step1 opts st t e).settledAt = st.settledAt := by
  cases e with
  | subRespond p =>
    cases hi : st.interaction with
    | none => simp [step1, hi, h]
    | some i =>
      by_cases hp : i.state = .pending
      · cases hc : i.callback <;>
          simp [step1, hi, hp, hc, ProcState.settleProm, h]
      · simp [step1, hi, hp, h]
  | timerFire =>
    cases hi : st.interaction with
    | none => simp [step1, hi, h]
    | some i =>
      by_cases hp : i.state = .responded
      · simp [step1, hi, hp, h]
      · by_cases hd : (opts.deferOnTimeout && !i.isAutoComplete) = true
        · simp [step1, hi, hp, hd, ProcState.settleProm, h]
        · simp [step1, hi, hp, hd, ProcState.settleProm, h]

/-- A settled promise survives every remaining event of the run, with its
settlement time intact. -/
theorem runEvents1_keeps_settled (opts : HandlerOptions) (evs : List (Nat × PEvent)) :
    ∀ st r, st.promise = .resolvedWith r →
      (runEvents1 opts st evs).promise = .resolvedWith r ∧
      (runEvents1 opts st evs).settledAt = st.settledAt := by
  induction evs with
  | nil => exact fun st r h => ⟨h, rfl⟩
  | cons te rest ih =>
    intro st r h
    have hs := step1_keeps_settled opts st te.1 te.2 r h
    have hr := ih (step1 opts st te.1 te.2) r hs.1
    refine ⟨hr.1, ?_⟩
    calc (runEvents1 opts st (te :: rest)).settledAt
        = (runEvents1 opts (step1 opts st te.1 te.2) rest).settledAt := rfl
      _ = (step1 opts st te.1 te.2).settledAt := hr.2
      _ = st.settledAt := hs.2

/-- C2: at most one resolution succeeds. Once the promise of a verifying
processRequest run is settled, its value and settlement time survive all
further subscriber and timer events unchanged — the recorded outcome is
never overwritten — and a resolution attempt on an interaction that is no
longer pending leaves the promise and the interaction untouched, being
recorded only as a rejected double-response attempt. -/
theorem c2_single_resolution (opts : HandlerOptions) (st : ProcState)
    (evs : List (Nat × PEvent)) (r : IResponse)
    (hset : st.promise = .resolvedWith r) :
    ((runEvents1 opts st evs).promise = .resolvedWith r ∧
      (runEvents1 opts st evs).settledAt = st.settledAt) ∧
    (∀ t p i, st.interaction = some i → i.state ≠ .pending →
      step1 opts st t (.subRespond p) =
        { st with rejectedAttempts := st.rejectedAttempts + 1 }) := by
  refine ⟨runEvents1_keeps_settled opts evs st r hset, ?_⟩
  intro t p i hi hp
  simp [step1, hi, hp]

/-- Concrete state for the C2 witness: the promise already resolved with
the pong response at time 1 and a responded interaction. -/
def c2State : ProcState :=
  { promise := .resolvedWith (toResponse (.json .pong) none)
    settledAt := some 1
    interaction := some ⟨"a", 2, .responded, .resolver⟩
    timer := .scheduled 3
    timerFiredAt := none
    emittedCreate := true
    rejectedAttempts := 0 }

/-- Witness for C2 at the concrete settled state, running a late timer
firing and a late subscriber attempt. -/
theorem c2_single_resolution_witness :
    c2State.promise = .resolvedWith (toResponse (.json .pong) none) ∧
    (runEvents1 ⟨3, false⟩ c2State
        [(3, .timerFire), (4, .subRespond (.custom "late"))]).promise =
      .resolvedWith (toResponse (.json .pong) none) :=
  ⟨rfl,
    ((c2_single_resolution ⟨3, false⟩ c2State
      [(3, .timerFire), (4, .subRespond (.custom "late"))]
      (toResponse (.json .pong) none) rfl).1).1⟩

/-- C3: a body parsing to a ping (type 1) makes the verifying
processRequest resolve the Pong response immediately, with no Interaction
instantiated, no reply-timeout alarm scheduled and no interactionCreate
emitted; the signal-based variant likewise resolves Pong with no
Interaction and no interactionCreate, provided its signal is not already
aborted at entry. -/
theorem c3_ping_pong (opts : HandlerOptions) (s : Option (Nat × ResponsePayload))
    (i : APIInteraction) (sig : Option SignalSpec)
    (hping : i.type = 1)
    (hlive : ∀ g, sig = some g → g.abortedAtEntry = false) :
    ((processRequest1 opts (some i) s).promise =
        .resolvedWith (toResponse (.json .pong) none) ∧
      (processRequest1 opts (some i) s).interaction = none ∧
      (processRequest1 opts (some i) s).emittedCreate = false ∧
      (processRequest1 opts (some i) s).timer = .notScheduled) ∧
    ((processRequest2 sig (some i) s).promise = .resolvedWith .pong ∧
      (processRequest2 sig (some i) s).interaction = none ∧
      (processRequest2 sig (some i) s).emittedCreate = false) := by
  have hf : factoryFrom i = none := by
    simp [factoryFrom, hping]
  constructor
  · rcases s with _ | ⟨t, p⟩ <;>
      simp [processRequest1, setup1, hf, hping]
  · cases sig with
    | none =>
      rcases s with _ | ⟨t, p⟩ <;>
        simp [processRequest2, setup2, setup2core, Proc2State.settleProm, hf, hping,
          schedule2, runEvents2, step2]
    | some g =>
      have hg := hlive g rfl
      rcases s with _ | ⟨t, p⟩ <;>
        simp [processRequest2, setup2, setup2core, Proc2State.settleProm, hf, hping, hg,
          schedule2, runEvents2, step2]

/-- Witness for C3 at a concrete ping body, a live signal and a late
subscriber attempt. -/
theorem c3_ping_pong_witness :
    (⟨"p", 1⟩ : APIInteraction).type = 1 ∧
    (processRequest2 (some ⟨false, "reason", some 5⟩) (some ⟨"p", 1⟩)
        (some (2, .custom "x"))).promise = .resolvedWith .pong :=
  ⟨rfl,
    ((c3_ping_pong ⟨3000, false⟩ (some (2, .custom "x")) ⟨"p", 1⟩
      (some ⟨false, "reason", some 5⟩) rfl
      (by intro g hg; cases hg; rfl)).2).1⟩

/-- Decomposition of a successful factory construction: the type is one of
the recognized non-ping kinds and the interaction starts pending with the
resolver callback installed. -/
theorem factoryFrom_eq_some (i : APIInteraction) (d : InteractionState)
    (hfac : factoryFrom i = some d) :
    (i.type == 2 || i.type == 3 || i.type == 4 || i.type == 5) = true ∧
    d = ⟨i.id, i.type, .pending, .resolver⟩ := by
  unfold factoryFrom at hfac
  split at hfac
  · next hc =>
    refine ⟨hc, ?_⟩
    injection hfac with h
    exact h.symm
  · simp at hfac

/-- C4: with reply timeout T and no subscriber resolution within T, a
recognized non-ping interaction settles exactly at time T — neither before
nor without an outcome — with the deferred acknowledgement when
deferOnTimeout is set and the kind is not autocomplete, and with the hard
TimedOut 504 response otherwise, in particular for an autocomplete kind
even when the flag is set. -/
theorem c4_timeout_outcome (opts : HandlerOptions) (i : APIInteraction)
    (d : InteractionState) (s : Option (Nat × ResponsePayload))
    (hfac : factoryFrom i = some d)
    (hno : ∀ t p, s = some (t, p) → opts.replyTimeout ≤ t) :
    (processRequest1 opts (some i) s).settledAt = some opts.replyTimeout ∧
    (processRequest1 opts (some i) s).promise =
      (if (opts.deferOnTimeout && !(i.type == 4)) = true then
        .resolvedWith (toResponse (.json .deferredAck) none)
      else .resolvedWith (toResponse (.text timedOutMsg) (some 504))) := by
  obtain ⟨hcnd, hd⟩ := factoryFrom_eq_some i d hfac
  subst hd
  rcases s with _ | ⟨t, p⟩
  · by_cases hb : opts.deferOnTimeout = true <;> by_cases h4 : i.type = 4 <;>
      simp [processRequest1, setup1, hfac, runEvents1, schedule1, step1,
        ProcState.settleProm, InteractionState.isAutoComplete, hb, h4]
  · have hge : opts.replyTimeout ≤ t := hno t p rfl
    have hnl : ¬ t < opts.replyTimeout := Nat.not_lt.mpr hge
    by_cases hb : opts.deferOnTimeout = true <;> by_cases h4 : i.type = 4 <;>
      simp [processRequest1, setup1, hfac, runEvents1, schedule1, hnl, step1,
        ProcState.settleProm, InteractionState.isAutoComplete, hb, h4]

/-- Witness for C4 at an autocomplete interaction with the defer flag set:
the exemption forces the hard 504 timeout at time 3. -/
theorem c4_timeout_outcome_witness :
    factoryFrom ⟨"a", 4⟩ = some ⟨"a", 4, .pending, .resolver⟩ ∧
    ((processRequest1 ⟨3, true⟩ (some ⟨"a", 4⟩) none).settledAt = some 3 ∧
     (processRequest1 ⟨3, true⟩ (some ⟨"a", 4⟩) none).promise =
       (if ((⟨3, true⟩ : HandlerOptions).deferOnTimeout &&
            !((⟨"a", 4⟩ : APIInteraction).type == 4)) = true then
         .resolvedWith (toResponse (.json .deferredAck) none)
       else .resolvedWith (toResponse (.text timedOutMsg) (some 504)))) :=
  ⟨rfl, c4_timeout_outcome ⟨3, true⟩ ⟨"a", 4⟩ ⟨"a", 4, .pending, .resolver⟩ none rfl
    (fun _ _ h => nomatch h)⟩

/-- C5 counterexample: with reply timeout 3 and a subscriber resolution at
time 1, the call settles at time 1, yet the alarm is still scheduled — not
cleared — immediately after the resolution step and still fires at time 3,
after resolution; so the claim that the alarm is canceled immediately upon
resolution and never fires afterwards fails at this input. -/
theorem c5_counterexample :
    (runEvents1 ⟨3, false⟩ (setup1 ⟨3, false⟩ (some ⟨"a", 2⟩))
        [(1, .subRespond (.custom "hi"))]).timer = .scheduled 3 ∧
    (runEvents1 ⟨3, false⟩ (setup1 ⟨3, false⟩ (some ⟨"a", 2⟩))
        [(1, .subRespond (.custom "hi"))]).timer ≠ .cleared ∧
    (processRequest1 ⟨3, false⟩ (some ⟨"a", 2⟩) (some (1, .custom "hi"))).settledAt =
      some 1 ∧
    (processRequest1 ⟨3, false⟩ (some ⟨"a", 2⟩) (some (1, .custom "hi"))).timerFiredAt =
      some 3 ∧
    (1 : Nat) < 3 :=
  ⟨rfl, by decide, rfl, rfl, by decide⟩

/-- C5 amended: the reply-timeout alarm is never cleared. After a
subscriber resolution at time t before the timeout the alarm remains
scheduled, it still fires at replyTimeout — after resolution — and its
firing is a no-op thanks to the responded guard: the promise keeps the
subscriber's payload settled at t. -/
theorem c5_timer_never_cleared (opts : HandlerOptions) (i : APIInteraction)
    (d : InteractionState) (t : Nat) (p : ResponsePayload)
    (hfac : factoryFrom i = some d) (ht : t < opts.replyTimeout) :
    (runEvents1 opts (setup1 opts (some i)) [(t, .subRespond p)]).timer =
      .scheduled opts.replyTimeout ∧
    (processRequest1 opts (some i) (some (t, p))).timerFiredAt =
      some opts.replyTimeout ∧
    (processRequest1 opts (some i) (some (t, p))).settledAt = some t ∧
    (processRequest1 opts (some i) (some (t, p))).promise =
      .resolvedWith (toResponse (.json p) none) := by
  obtain ⟨hcnd, hd⟩ := factoryFrom_eq_some i d hfac
  subst hd
  refine ⟨?_, ?_, ?_, ?_⟩ <;>
    simp [processRequest1, setup1, hfac, runEvents1, schedule1, ht, step1,
      ProcState.settleProm, InteractionState.isAutoComplete]

/-- Witness for C5 amended at the concrete counterexample input. -/
theorem c5_timer_never_cleared_witness :
    factoryFrom ⟨"a", 2⟩ = some ⟨"a", 2, .pending, .resolver⟩ ∧ (1 : Nat) < 3 ∧
    (processRequest1 ⟨3, false⟩ (some ⟨"a", 2⟩) (some (1, .custom "hi"))).promise =
      .resolvedWith (toResponse (.json (.custom "hi")) none) :=
  ⟨rfl, by decide,
    (c5_timer_never_cleared ⟨3, false⟩ ⟨"a", 2⟩ ⟨"a", 2, .pending, .resolver⟩ 1
      (.custom "hi") rfl (by decide)).2.2.2⟩

/-- C6 counterexample: on a command interaction with a signal firing at
time 1 and a subscriber attempt at time 2, the signal-based processRequest
rejects with the signal reason, but at the moment the rejection is
reported the Interaction is still pending — not in a terminal state — and
the later resolution attempt invokes the throwing replacement callback
rather than being a pure no-op, refuting the claim as stated. -/
theorem c6_counterexample :
    (processRequest2 (some ⟨false, "cancelled", some 1⟩) (some ⟨"a", 2⟩)
        (some (2, .custom "late"))).promise = .rejectedWith "cancelled" ∧
    (processRequest2 (some ⟨false, "cancelled", some 1⟩) (some ⟨"a", 2⟩)
        (some (2, .custom "late"))).stateAtReject = some .pending ∧
    IState.pending ≠ IState.responded ∧ IState.pending ≠ IState.timedOut ∧
    (processRequest2 (some ⟨false, "cancelled", some 1⟩) (some ⟨"a", 2⟩)
        (some (2, .custom "late"))).callbackThrew = true :=
  ⟨rfl, rfl, by decide, by decide, rfl⟩

/-- C6 amended: a signal already aborted at entry makes the signal-based
processRequest reject at once with the signal reason, before any parsing;
a signal firing at time f after a recognized interaction was created and
before the subscriber attempt at time t makes the call reject with the
signal reason settled at f while the Interaction is still pending — the
abort handler only swaps in a throwing callback, it does not finalize the
state — and the later resolution attempt cannot change the settled
rejected outcome. -/
theorem c6_abort_behaviour (parsed : Option APIInteraction) (g : SignalSpec)
    (i : APIInteraction) (d : InteractionState) (f t : Nat) (p : ResponsePayload)
    (hfac : factoryFrom i = some d) :
    (g.abortedAtEntry = true →
      (processRequest2 (some g) parsed none).promise = .rejectedWith g.reason ∧
      (processRequest2 (some g) parsed none).parseAttempted = false) ∧
    (g.abortedAtEntry = false → g.firesAt = some f → f < t →
      (processRequest2 (some g) (some i) (some (t, p))).promise =
        .rejectedWith g.reason ∧
      (processRequest2 (some g) (some i) (some (t, p))).settledAt = some f ∧
      (processRequest2 (some g) (some i) (some (t, p))).stateAtReject =
        some .pending) := by
  obtain ⟨hcnd, hd⟩ := factoryFrom_eq_some i d hfac
  subst hd
  constructor
  · intro hab
    simp [processRequest2, setup2, Proc2State.settleProm, hab, schedule2, runEvents2]
  · intro hab hf hft
    have hle : f ≤ t := Nat.le_of_lt hft
    simp [processRequest2, setup2, setup2core, hab, hf, hfac, Proc2State.settleProm,
      schedule2, runEvents2, step2, hle]

/-- Witness for C6 amended at the concrete firing signal. -/
theorem c6_abort_behaviour_witness :
    factoryFrom ⟨"a", 2⟩ = some ⟨"a", 2, .pending, .resolver⟩ ∧
    (1 : Nat) < 3 ∧
    (processRequest2 (some ⟨false, "cancelled", some 1⟩) (some ⟨"a", 2⟩)
        (some (3, .custom "late"))).promise = .rejectedWith "cancelled" :=
  ⟨rfl, by decide,
    ((c6_abort_behaviour none ⟨false, "cancelled", some 1⟩ ⟨"a", 2⟩
      ⟨"a", 2, .pending, .resolver⟩ 1 3 (.custom "late") rfl).2 rfl rfl
      (by decide)).1⟩
